import Mathlib

/-!
Shallow embedding of `music_assistant/managers/library.py` (LibraryManager):
the sync-task run guard, the per-media-type library syncers, the playlist
track mutator and the sync coordinator.  External collaborators (provider,
store, cache, music manager) are modelled as explicit function parameters;
the observable effects of a run (add-to-library calls, remove-from-library
calls, the value written back to the cache, event-bus signals) are returned
as explicit data.
-/

/-- `MediaType` enum from `music_assistant.models.media_types`. -/
inductive MediaType where
  | artist
  | album
  | track
  | playlist
  | radio
deriving DecidableEq, Repr

/-- `ProviderType` from `music_assistant.models.provider` (only the variant the
manager inspects, plus a stand-in for every other variant). -/
inductive ProviderType where
  | musicProvider
  | other
deriving DecidableEq, Repr

/-- A registered provider as seen by the manager: its declared
`supported_mediatypes` and its `type`. -/
structure Provider where
  id : String
  type : ProviderType
  supported_mediatypes : List MediaType
deriving DecidableEq, Repr

/-- One entry of a media item's `provider_ids` list: provider name,
provider-local item id and quality rank. -/
structure ProviderRef where
  provider : String
  item_id : String
  quality : Nat
deriving DecidableEq, Repr

/-- A track as passed to the playlist mutator: local identifier plus its
`provider_ids`. -/
structure Track where
  item_id : String
  provider_ids : List ProviderRef
deriving DecidableEq, Repr

/-- A database playlist: editability flag and its `provider_ids`
(`async_add_playlist_tracks` reads only `provider_ids[0]`). -/
structure Playlist where
  item_id : String
  is_editable : Bool
  provider_ids : List ProviderRef
deriving DecidableEq, Repr

/-- One `async_add_to_library` / `async_remove_from_library` store call:
the arguments `(item_id, media_type, provider)` it was given. -/
structure LibCall where
  item_id : Nat
  media_type : MediaType
  provider : String
deriving DecidableEq, Repr

/-- The observable effects of one syncer body run: the add-to-library calls,
the remove-from-library calls, and the id list written to the cache. -/
structure SyncResult where
  adds : List LibCall
  removes : List LibCall
  cacheSet : List Nat
deriving DecidableEq, Repr

/-! ## PlaylistTrackMutator (`async_add_playlist_tracks`, `async_remove_playlist_tracks`) -/

/-- Result of a playlist mutation call.  `ok retval checksumBumped providerCall`
records the Python return value (`none` models Python `None`, `some b` a bool),
whether `async_update_playlist(..., "checksum", ...)` was issued, and the
provider-side call `(prov_playlist_item_id, track_ids)` if one was made.
`err` models an unhandled exception (e.g. `provider_ids[0]` on an empty list). -/
inductive PlaylistOpResult where
  | err
  | ok (retval : Option Bool) (checksumBumped : Bool)
      (providerCall : Option (String × List String))
deriving DecidableEq, Repr

/-- Python's stable `sorted(track.provider_ids, key=lambda x: x.quality,
reverse=True)`: stable sort by descending quality. -/
def sortRefs (l : List ProviderRef) : List ProviderRef :=
  l.insertionSort (fun a b => b.quality ≤ a.quality)

/-- The inner `for track_version in sorted(...)` loop of
`async_add_playlist_tracks`: walk the (already sorted) refs; the first ref on
the playlist's provider yields its `item_id`; otherwise, if the playlist
provider is `"file"`, the first ref yields a synthesized
`provider://item_id` URI (both `break`). -/
def pickTrackId (playlistProv : String) : List ProviderRef → Option String
  | [] => none
  | r :: rest =>
    if r.provider = playlistProv then some r.item_id
    else if playlistProv = "file" then some (r.provider ++ "://" ++ r.item_id)
    else pickTrackId playlistProv rest

/-- The id (or URI) `async_add_playlist_tracks` queues for one candidate
track, if any: the ref walk applied to the quality-sorted `provider_ids`. -/
def bestTrackId (playlistProv : String) (track : Track) : Option String :=
  pickTrackId playlistProv (sortRefs track.provider_ids)

/-- `cur_playlist_track_ids`: for each existing playlist track, its own
`item_id` followed by the `item_id` of each of its `provider_ids`. -/
def curPlaylistTrackIds : List Track → List String
  | [] => []
  | item :: rest =>
    item.item_id :: (item.provider_ids.map (fun i => i.item_id)
      ++ curPlaylistTrackIds rest)

/-- The duplicate test of `async_add_playlist_tracks`: the candidate's own
`item_id`, or any of its provider ids, already occurs in
`cur_playlist_track_ids`. -/
def trackAlreadyExists (curIds : List String) (track : Track) : Bool :=
  curIds.contains track.item_id
    || track.provider_ids.any (fun r => curIds.contains r.item_id)

/-- `track_ids_to_add`: skip duplicates, otherwise queue the picked id/URI for
each candidate track (tracks whose ref walk yields nothing are skipped). -/
def trackIdsToAdd (playlistProv : String) (curIds : List String) :
    List Track → List String
  | [] => []
  | track :: rest =>
    if trackAlreadyExists curIds track then trackIdsToAdd playlistProv curIds rest
    else
      match bestTrackId playlistProv track with
      | some tid => tid :: trackIdsToAdd playlistProv curIds rest
      | none => trackIdsToAdd playlistProv curIds rest

/-- `async_add_playlist_tracks(db_playlist_id, tracks)`.
`playlist?` is the result of the `async_get_playlist(db_playlist_id,
"database")` lookup; `plTracks` the playlist's existing tracks as returned by
`async_get_playlist_tracks`; `provResult?` the provider's
`async_add_playlist_tracks` return value (`none` models a missing provider,
whose method access would raise). -/
def async_add_playlist_tracks (playlist? : Option Playlist)
    (plTracks : List Track) (tracks : List Track) (provResult? : Option Bool) :
    PlaylistOpResult :=
  match playlist? with
  | none => .ok (some false) false none
  | some playlist =>
    if !playlist.is_editable then .ok (some false) false none
    else
      match playlist.provider_ids with
      | [] => .err
      | playlist_prov :: _ =>
        let cur_ids := curPlaylistTrackIds plTracks
        let to_add := trackIdsToAdd playlist_prov.provider cur_ids tracks
        match to_add with
        | [] => .ok (some false) false none
        | _ :: _ =>
          match provResult? with
          | none => .err
          | some b => .ok (some b) true (some (playlist_prov.item_id, to_add))

/-- `track_ids_to_remove`: for each given track, every ref on the playlist's
provider contributes its `item_id` (all versions are removed). -/
def trackIdsToRemove (playlistProv : String) : List Track → List String
  | [] => []
  | track :: rest =>
    (track.provider_ids.filter (fun r => r.provider = playlistProv)).map
        (fun r => r.item_id)
      ++ trackIdsToRemove playlistProv rest

/-- `async_remove_playlist_tracks(db_playlist_id, tracks)`.  Returns
`ok (some false) ..` when the playlist is missing or not editable,
`ok none ..` when no matching ids were collected (the Python function falls
off the end and returns `None`). -/
def async_remove_playlist_tracks (playlist? : Option Playlist)
    (tracks : List Track) (provResult? : Option Bool) : PlaylistOpResult :=
  match playlist? with
  | none => .ok (some false) false none
  | some playlist =>
    if !playlist.is_editable then .ok (some false) false none
    else
      match playlist.provider_ids with
      | [] => .err
      | prov_playlist :: _ =>
        match trackIdsToRemove prov_playlist.provider tracks with
        | [] => .ok none false none
        | id0 :: ids =>
          match provResult? with
          | none => .err
          | some b => .ok (some b) true (some (prov_playlist.item_id, id0 :: ids))

/-! ## The `sync_task` run guard (decorator) -/

/-- Outcome of one call of a `sync_task`-wrapped method.
`bodyResult` is `none` when the duplicate-run check made the call return
before the body ran, otherwise `some` of the body's outcome (`Except.error ()`
models the body raising).  `finalJobs` is `running_sync_jobs` once the call
has returned (normally or by exception); `signals` lists every
`EVENT_MUSIC_SYNC_STATUS` payload published, in order. -/
structure TaskRun (α : Type) where
  bodyResult : Option (Except Unit α)
  finalJobs : List (String × String)
  signals : List (List (String × String))

/-- The `sync_task(desc)` decorator's `async_wrapped`, for one call: if
`(prov_id, desc)` is already in `running_sync_jobs` the call returns at once;
otherwise the job is appended and status signalled, the body runs, and only on
normal return is the job removed (and status signalled again) — an exception
propagates past the removal. -/
def sync_task {α : Type} (jobs : List (String × String)) (prov_id desc : String)
    (body : Except Unit α) : TaskRun α :=
  if (prov_id, desc) ∈ jobs then ⟨none, jobs, []⟩
  else
    let jobs1 := jobs ++ [(prov_id, desc)]
    match body with
    | .error e => ⟨some (.error e), jobs1, [jobs1]⟩
    | .ok r => ⟨some (.ok r), jobs1.erase (prov_id, desc), [jobs1, jobs1.erase (prov_id, desc)]⟩

/-! ## EntitySyncer bodies -/

/-- The per-item loop of `async_library_artists_sync`: resolve each provider
item through `async_get_artist` (modelled by `getArtist`, with `provider_id`
fixed), collect the db id, and issue an unconditional add-to-library call. -/
def artistsSyncLoop (provider_id : String) (getArtist : String → Nat) :
    List String → List Nat × List LibCall
  | [] => ([], [])
  | item :: rest =>
    let db_id := getArtist item
    let (ids, adds) := artistsSyncLoop provider_id getArtist rest
    (db_id :: ids, ⟨db_id, MediaType.artist, provider_id⟩ :: adds)

/-- `async_library_artists_sync` body (inside the `sync_task` guard): load
`prev_db_ids` from cache, walk the provider catalog, then remove every prior
id absent from `cur_db_ids` and store `cur_db_ids` back in the cache. -/
def async_library_artists_sync (provider_id : String) (getArtist : String → Nat)
    (catalog : List String) (prev_db_ids : List Nat) : SyncResult :=
  let cur_db_ids := (artistsSyncLoop provider_id getArtist catalog).1
  { adds := (artistsSyncLoop provider_id getArtist catalog).2
    removes := (prev_db_ids.filter (fun db_id => !cur_db_ids.contains db_id)).map
      (fun db_id => ⟨db_id, MediaType.artist, provider_id⟩)
    cacheSet := cur_db_ids }

/-- `async_library_artists_sync` including the catalog fetch:
`async_get_library_artists` raising is modelled by `catalogFetch` being
`Except.error ()`, which aborts the body before any effect. -/
def artistsSyncBody (provider_id : String) (getArtist : String → Nat)
    (catalogFetch : Except Unit (List String)) (prev_db_ids : List Nat) :
    Except Unit SyncResult :=
  match catalogFetch with
  | .error e => .error e
  | .ok catalog => .ok (async_library_artists_sync provider_id getArtist catalog prev_db_ids)

/-- A provider track item as consumed by `async_library_tracks_sync`:
`item_id` and `available`. -/
structure TrackProviderItem where
  item_id : String
  available : Bool
deriving DecidableEq, Repr

/-- The per-item loop of `async_library_tracks_sync`: resolve via
`async_get_track` (`getTrack`, returning the db item's id and availability);
on an availability mismatch re-resolve via `async_add_track` (`addTrack`);
add-to-library only when the db id is not already in `prev_db_ids`. -/
def tracksSyncLoop (provider_id : String) (getTrack : String → Nat × Bool)
    (addTrack : TrackProviderItem → Nat × Bool) (prev_db_ids : List Nat) :
    List TrackProviderItem → List Nat × List LibCall
  | [] => ([], [])
  | item :: rest =>
    let db0 := getTrack item.item_id
    let db_item := if db0.2 ≠ item.available then addTrack item else db0
    let (ids, adds) := tracksSyncLoop provider_id getTrack addTrack prev_db_ids rest
    (db_item.1 :: ids,
      (if !prev_db_ids.contains db_item.1
        then [(⟨db_item.1, MediaType.track, provider_id⟩ : LibCall)] else []) ++ adds)

/-- `async_library_tracks_sync` body: like artists, but the add-to-library
call is skipped for ids already present in `prev_db_ids`. -/
def async_library_tracks_sync (provider_id : String) (getTrack : String → Nat × Bool)
    (addTrack : TrackProviderItem → Nat × Bool) (catalog : List TrackProviderItem)
    (prev_db_ids : List Nat) : SyncResult :=
  let cur_db_ids := (tracksSyncLoop provider_id getTrack addTrack prev_db_ids catalog).1
  { adds := (tracksSyncLoop provider_id getTrack addTrack prev_db_ids catalog).2
    removes := (prev_db_ids.filter (fun db_id => !cur_db_ids.contains db_id)).map
      (fun db_id => ⟨db_id, MediaType.track, provider_id⟩)
    cacheSet := cur_db_ids }

/-- A provider playlist item as consumed by `async_library_playlists_sync`:
`item_id`, `checksum` and its own `provider` attribute. -/
structure PlaylistProviderItem where
  item_id : String
  checksum : String
  provider : String
deriving DecidableEq, Repr

/-- The per-item loop of `async_library_playlists_sync`: resolve via
`async_get_playlist` (`getPlaylist`, returning db id and stored checksum);
on a checksum mismatch re-create via `async_add_playlist` (`addPlaylist`);
then add-to-library with the *fetched playlist's own* `provider` attribute.
(The track pre-cache walk issues no add/remove-from-library or cache call and
is not part of the recorded effects.) -/
def playlistsSyncLoop (getPlaylist : String → Nat × String)
    (addPlaylist : PlaylistProviderItem → Nat) :
    List PlaylistProviderItem → List Nat × List LibCall
  | [] => ([], [])
  | pl :: rest =>
    let db0 := getPlaylist pl.item_id
    let db_id := if db0.2 ≠ pl.checksum then addPlaylist pl else db0.1
    let (ids, adds) := playlistsSyncLoop getPlaylist addPlaylist rest
    (db_id :: ids, ⟨db_id, MediaType.playlist, pl.provider⟩ :: adds)

/-- `async_library_playlists_sync` body: deletions and the cache write use
`provider_id`, the add calls use each playlist's own `provider`. -/
def async_library_playlists_sync (provider_id : String)
    (getPlaylist : String → Nat × String) (addPlaylist : PlaylistProviderItem → Nat)
    (catalog : List PlaylistProviderItem) (prev_db_ids : List Nat) : SyncResult :=
  let cur_db_ids := (playlistsSyncLoop getPlaylist addPlaylist catalog).1
  { adds := (playlistsSyncLoop getPlaylist addPlaylist catalog).2
    removes := (prev_db_ids.filter (fun db_id => !cur_db_ids.contains db_id)).map
      (fun db_id => ⟨db_id, MediaType.playlist, provider_id⟩)
    cacheSet := cur_db_ids }

/-! ## SyncCoordinator -/

/-- `async_music_provider_sync(prov_id)`: after the `get_provider` lookup
(`none` → early return), the per-media-type syncers are invoked in the order
the `if` statements appear in the source; the returned list records which
syncers run, in order. -/
def async_music_provider_sync (provider? : Option Provider) : List MediaType :=
  match provider? with
  | none => []
  | some provider =>
    (if MediaType.album ∈ provider.supported_mediatypes then [MediaType.album] else [])
    ++ (if MediaType.track ∈ provider.supported_mediatypes then [MediaType.track] else [])
    ++ (if MediaType.artist ∈ provider.supported_mediatypes then [MediaType.artist] else [])
    ++ (if MediaType.playlist ∈ provider.supported_mediatypes then [MediaType.playlist] else [])
    ++ (if MediaType.radio ∈ provider.supported_mediatypes then [MediaType.radio] else [])

/-- The `EVENT_PROVIDER_REGISTERED` branch of `mass_event`: `get_provider` is
dereferenced (`provider.type`) without a `None` check, so an absent provider
raises (`Except.error ()`); otherwise `ok b` with `b` true iff a sync job was
scheduled. -/
def mass_event_provider_registered (provider? : Option Provider) : Except Unit Bool :=
  match provider? with
  | none => .error ()
  | some provider => .ok (provider.type = ProviderType.musicProvider)

/-! ## Helper lemmas -/

theorem artistsSyncLoop_fst (provider_id : String) (getArtist : String → Nat) :
    ∀ catalog : List String,
      (artistsSyncLoop provider_id getArtist catalog).1 = catalog.map getArtist
  | [] => rfl
  | item :: rest => by
    simp [artistsSyncLoop, artistsSyncLoop_fst provider_id getArtist rest]

/-- Counting one remove-from-library call in the deletion pass: with a
duplicate-free prior id list, each prior id absent from `cur` is removed
exactly once and nothing else is removed. -/
theorem count_removes (pid : String) (mt : MediaType) (cur prev : List Nat)
    (h : prev.Nodup) (db_id : Nat) :
    ((prev.filter (fun i => !cur.contains i)).map
        (fun i => (⟨i, mt, pid⟩ : LibCall))).count ⟨db_id, mt, pid⟩ =
      if db_id ∈ prev ∧ db_id ∉ cur then 1 else 0 := by
  have hinj : Function.Injective (fun i => (⟨i, mt, pid⟩ : LibCall)) := by
    intro a b hab
    simpa using hab
  rw [List.count_map_of_injective _ _ hinj]
  by_cases hc : db_id ∈ cur
  · rw [List.count_eq_zero.mpr, if_neg]
    · simp [hc]
    · intro hmem
      have := List.of_mem_filter hmem
      simp_all
  · have hpred : (fun i => !cur.contains i) db_id = true := by simp [hc]
    rw [show List.count db_id (List.filter (fun i => !cur.contains i) prev)
        = List.count db_id prev from List.count_filter hpred]
    by_cases hp : db_id ∈ prev
    · rw [List.count_eq_one_of_mem h hp, if_pos ⟨hp, hc⟩]
    · rw [List.count_eq_zero.mpr hp, if_neg (by simp [hp])]

/-! ## Claims -/

/-- C1: for an artists sync run with duplicate-free prior id set `prev_db_ids`
and a catalog resolving to current ids `catalog.map getArtist`, exactly the
prior ids absent from the current ids receive a remove-from-library call (one
call each, no other removals, all for `(provider_id, artist)`), and the id
list persisted to the cache equals the current ids. -/
theorem C1_deletion_correctness (provider_id : String) (getArtist : String → Nat)
    (catalog : List String) (prev_db_ids : List Nat) (h : prev_db_ids.Nodup) :
    (∀ db_id : Nat,
      (async_library_artists_sync provider_id getArtist catalog prev_db_ids).removes.count
          ⟨db_id, MediaType.artist, provider_id⟩ =
        if db_id ∈ prev_db_ids ∧ db_id ∉ catalog.map getArtist then 1 else 0)
    ∧ (∀ c ∈ (async_library_artists_sync provider_id getArtist catalog prev_db_ids).removes,
        c.media_type = MediaType.artist ∧ c.provider = provider_id)
    ∧ (async_library_artists_sync provider_id getArtist catalog prev_db_ids).cacheSet
        = catalog.map getArtist := by
  refine ⟨fun db_id => ?_, fun c hc => ?_, ?_⟩
  · unfold async_library_artists_sync
    rw [artistsSyncLoop_fst]
    exact count_removes provider_id MediaType.artist (catalog.map getArtist) prev_db_ids h db_id
  · unfold async_library_artists_sync at hc
    obtain ⟨i, _, rfl⟩ := List.mem_map.mp hc
    exact ⟨rfl, rfl⟩
  · unfold async_library_artists_sync
    rw [artistsSyncLoop_fst]

/-- Witness for C1 at the spec's example: prior set `{1, 2, 3}`, catalog
resolving to `{1, 3}` (`"a"` and `"aaa"` resolved by length). -/
theorem C1_deletion_correctness_witness :
    ([1, 2, 3] : List Nat).Nodup ∧
      ((∀ db_id : Nat,
        (async_library_artists_sync "p1" String.length ["a", "aaa"] [1, 2, 3]).removes.count
            ⟨db_id, MediaType.artist, "p1"⟩ =
          if db_id ∈ [1, 2, 3] ∧ db_id ∉ ["a", "aaa"].map String.length then 1 else 0)
      ∧ (∀ c ∈ (async_library_artists_sync "p1" String.length ["a", "aaa"] [1, 2, 3]).removes,
          c.media_type = MediaType.artist ∧ c.provider = "p1")
      ∧ (async_library_artists_sync "p1" String.length ["a", "aaa"] [1, 2, 3]).cacheSet
          = ["a", "aaa"].map String.length) :=
  ⟨by decide, C1_deletion_correctness "p1" String.length ["a", "aaa"] [1, 2, 3] (by decide)⟩

/-- C2: a `sync_task` call for a `(provider_id, kind)` pair already present in
`running_sync_jobs` returns at once — the body never runs, the job list is
unchanged and no status event is signalled; when the pair is not registered,
the body does run. -/
theorem C2_duplicate_run_guard {α : Type} (jobs : List (String × String))
    (prov_id desc : String) (body : Except Unit α) :
    ((prov_id, desc) ∈ jobs →
      sync_task jobs prov_id desc body = ⟨none, jobs, []⟩)
    ∧ ((prov_id, desc) ∉ jobs →
      (sync_task jobs prov_id desc body).bodyResult = some body) := by
  constructor
  · intro h
    simp [sync_task, h]
  · intro h
    cases body <;> simp [sync_task, h]

/-- Witness for C2: with `("p1", "artists")` already registered, the call is a
no-op. -/
theorem C2_duplicate_run_guard_witness :
    sync_task [("p1", "artists")] "p1" "artists" (Except.ok (0 : Nat)) =
      ⟨none, [("p1", "artists")], []⟩ :=
  (C2_duplicate_run_guard [("p1", "artists")] "p1" "artists" (Except.ok 0)).1 (by decide)

/-- C3 at the failing input: the catalog fetch raises during an artists sync
started from an empty registry with prior ids `[1, 2]`.  The body aborts with
no `SyncResult` (so no deletion is computed and nothing is written to the
cache), but `("p1", "artists")` is still registered after the call — the
decorator has no `try/finally`, so the exception propagates past
`running_sync_jobs.remove` and the entry is left stuck. -/
theorem C3_failure_leaves_registry_entry :
    sync_task [] "p1" "artists" (artistsSyncBody "p1" (fun _ => 0) (.error ()) [1, 2]) =
      ⟨some (.error ()), [("p1", "artists")], [[("p1", "artists")]]⟩ := by
  simp [sync_task, artistsSyncBody]

/-- The id list produced by the tracks loop does not depend on `prev_db_ids`
(only the add calls do). -/
theorem tracksSyncLoop_fst (provider_id : String) (getTrack : String → Nat × Bool)
    (addTrack : TrackProviderItem → Nat × Bool) (prev prev' : List Nat) :
    ∀ catalog : List TrackProviderItem,
      (tracksSyncLoop provider_id getTrack addTrack prev catalog).1 =
        (tracksSyncLoop provider_id getTrack addTrack prev' catalog).1
  | [] => rfl
  | item :: rest => by
    simp [tracksSyncLoop,
      tracksSyncLoop_fst provider_id getTrack addTrack prev prev' rest]

/-- When every id the tracks loop produces is already in `prev_db_ids`, the
loop issues no add-to-library call. -/
theorem tracksSyncLoop_adds_nil (provider_id : String) (getTrack : String → Nat × Bool)
    (addTrack : TrackProviderItem → Nat × Bool) (prev : List Nat) :
    ∀ catalog : List TrackProviderItem,
      (∀ i ∈ (tracksSyncLoop provider_id getTrack addTrack prev catalog).1, i ∈ prev) →
      (tracksSyncLoop provider_id getTrack addTrack prev catalog).2 = []
  | [], _ => rfl
  | item :: rest, h => by
    have hhead : ((if (getTrack item.item_id).2 = item.available then getTrack item.item_id
        else addTrack item)).1 ∈ prev := by
      refine h _ ?_
      simp [tracksSyncLoop]
    have htail : ∀ i ∈ (tracksSyncLoop provider_id getTrack addTrack prev rest).1, i ∈ prev := by
      intro i hi
      exact h i (by simp [tracksSyncLoop, hi])
    simp [tracksSyncLoop, hhead,
      tracksSyncLoop_adds_nil provider_id getTrack addTrack prev rest htail]

/-- A list filtered by non-membership in a superset of itself is empty. -/
theorem filter_not_contains_nil (l cur : List Nat) (h : ∀ i ∈ l, i ∈ cur) :
    l.filter (fun i => !cur.contains i) = [] := by
  rw [List.filter_eq_nil_iff]
  intro i hi
  simp [h i hi]

/-- C4 (amended): a second sync run over an unchanged catalog (same resolver
results) issues no remove-from-library call and writes the same id list back
to the cache; the tracks syncer additionally issues no add-to-library call,
while the artists syncer re-issues exactly the same add calls as the first
run. -/
theorem C4_second_run_idempotence (provider_id : String)
    (getTrack : String → Nat × Bool) (addTrack : TrackProviderItem → Nat × Bool)
    (tcatalog : List TrackProviderItem) (getArtist : String → Nat)
    (acatalog : List String) (tprev aprev : List Nat) :
    ((async_library_tracks_sync provider_id getTrack addTrack tcatalog
        (async_library_tracks_sync provider_id getTrack addTrack tcatalog tprev).cacheSet).adds = []
      ∧ (async_library_tracks_sync provider_id getTrack addTrack tcatalog
        (async_library_tracks_sync provider_id getTrack addTrack tcatalog tprev).cacheSet).removes = []
      ∧ (async_library_tracks_sync provider_id getTrack addTrack tcatalog
          (async_library_tracks_sync provider_id getTrack addTrack tcatalog tprev).cacheSet).cacheSet
        = (async_library_tracks_sync provider_id getTrack addTrack tcatalog tprev).cacheSet)
    ∧ ((async_library_artists_sync provider_id getArtist acatalog
        (async_library_artists_sync provider_id getArtist acatalog aprev).cacheSet).removes = []
      ∧ (async_library_artists_sync provider_id getArtist acatalog
          (async_library_artists_sync provider_id getArtist acatalog aprev).cacheSet).cacheSet
        = (async_library_artists_sync provider_id getArtist acatalog aprev).cacheSet
      ∧ (async_library_artists_sync provider_id getArtist acatalog
          (async_library_artists_sync provider_id getArtist acatalog aprev).cacheSet).adds
        = (async_library_artists_sync provider_id getArtist acatalog aprev).adds) := by
  have hfst : ∀ prev prev' : List Nat,
      (tracksSyncLoop provider_id getTrack addTrack prev tcatalog).1 =
        (tracksSyncLoop provider_id getTrack addTrack prev' tcatalog).1 :=
    fun prev prev' => tracksSyncLoop_fst provider_id getTrack addTrack prev prev' tcatalog
  refine ⟨⟨?_, ?_, ?_⟩, ?_, ?_, ?_⟩
  · unfold async_library_tracks_sync
    refine tracksSyncLoop_adds_nil provider_id getTrack addTrack _ tcatalog ?_
    intro i hi
    rw [hfst _ tprev] at hi
    exact hi
  · unfold async_library_tracks_sync
    rw [List.map_eq_nil_iff]
    refine filter_not_contains_nil _ _ ?_
    intro i hi
    rw [hfst _ tprev]
    exact hi
  · unfold async_library_tracks_sync
    exact hfst _ tprev
  · unfold async_library_artists_sync
    rw [List.map_eq_nil_iff]
    exact filter_not_contains_nil _ _ (fun i hi => hi)
  · rfl
  · rfl

/-- Counterexample to C4 as stated: an artists sync run twice over the
unchanged catalog `["a"]` (resolving to db id 1) re-issues the
add-to-library call on the second run. -/
theorem C4_counterexample :
    (async_library_artists_sync "p1" String.length ["a"]
        (async_library_artists_sync "p1" String.length ["a"] []).cacheSet).adds =
      [⟨1, MediaType.artist, "p1"⟩] := rfl

/-- Counterexample to C5 as stated: for a provider supporting every media
type, the syncers run in the order album, track, artist, playlist, radio —
not artist first; in particular the album sync runs before the artist sync. -/
theorem C5_counterexample :
    async_music_provider_sync
        (some ⟨"p1", ProviderType.musicProvider,
          [MediaType.artist, MediaType.album, MediaType.track, MediaType.playlist,
            MediaType.radio]⟩) =
      [MediaType.album, MediaType.track, MediaType.artist, MediaType.playlist, MediaType.radio]
    ∧ ([MediaType.album, MediaType.track, MediaType.artist, MediaType.playlist, MediaType.radio]
        ≠ [MediaType.artist, MediaType.album, MediaType.track, MediaType.playlist,
            MediaType.radio]) :=
  ⟨by decide, by decide⟩

/-- C5 (amended): the full-provider sync invokes the per-media-type syncers
for exactly the media types the provider declares support for, in the fixed
order album, track, artist, playlist, radio. -/
theorem C5_full_sync_order (p : Provider) :
    async_music_provider_sync (some p) =
      [MediaType.album, MediaType.track, MediaType.artist, MediaType.playlist,
        MediaType.radio].filter (fun mt => decide (mt ∈ p.supported_mediatypes)) := by
  by_cases h1 : MediaType.album ∈ p.supported_mediatypes <;>
    by_cases h2 : MediaType.track ∈ p.supported_mediatypes <;>
      by_cases h3 : MediaType.artist ∈ p.supported_mediatypes <;>
        by_cases h4 : MediaType.playlist ∈ p.supported_mediatypes <;>
          by_cases h5 : MediaType.radio ∈ p.supported_mediatypes <;>
            simp [async_music_provider_sync, h1, h2, h3, h4, h5]

/-- When every candidate track trips the duplicate check, nothing is queued. -/
theorem trackIdsToAdd_nil_of_dups (playlistProv : String) (curIds : List String) :
    ∀ tracks : List Track, (∀ t ∈ tracks, trackAlreadyExists curIds t = true) →
      trackIdsToAdd playlistProv curIds tracks = []
  | [], _ => rfl
  | track :: rest, h => by
    have hdup := h track (List.mem_cons_self track rest)
    simp [trackIdsToAdd, hdup,
      trackIdsToAdd_nil_of_dups playlistProv curIds rest
        (fun t ht => h t (List.mem_cons_of_mem track ht))]

/-- C6: `async_add_playlist_tracks` returns `False`, bumps no checksum and
issues no provider-side call when the playlist is missing, when it is not
editable, and when every candidate track's own id or one of its provider ids
already occurs among the playlist's existing tracks' ids and provider ids. -/
theorem C6_add_returns_false_no_call (plTracks tracks : List Track)
    (provResult? : Option Bool) :
    (async_add_playlist_tracks none plTracks tracks provResult?
        = .ok (some false) false none)
    ∧ (∀ pl : Playlist, pl.is_editable = false →
        async_add_playlist_tracks (some pl) plTracks tracks provResult?
          = .ok (some false) false none)
    ∧ (∀ pl : Playlist, pl.is_editable = true → pl.provider_ids ≠ [] →
        (∀ t ∈ tracks, trackAlreadyExists (curPlaylistTrackIds plTracks) t = true) →
        async_add_playlist_tracks (some pl) plTracks tracks provResult?
          = .ok (some false) false none) := by
  refine ⟨rfl, fun pl hed => ?_, fun pl hed hne hdup => ?_⟩
  · simp [async_add_playlist_tracks, hed]
  · match hpl : pl.provider_ids with
    | [] => exact absurd hpl hne
    | playlist_prov :: rest =>
      simp [async_add_playlist_tracks, hed, hpl,
        trackIdsToAdd_nil_of_dups playlist_prov.provider _ tracks hdup]

/-- Witness for C6: editable `"file"` playlist, one candidate whose id `"t1"`
matches an existing playlist track's id. -/
theorem C6_add_returns_false_no_call_witness :
    async_add_playlist_tracks
        (some ⟨"pl1", true, [⟨"file", "plf", 0⟩]⟩)
        [⟨"t1", [⟨"spotify", "s1", 5⟩]⟩] [⟨"t1", []⟩] (some true)
      = .ok (some false) false none :=
  (C6_add_returns_false_no_call [⟨"t1", [⟨"spotify", "s1", 5⟩]⟩] [⟨"t1", []⟩]
      (some true)).2.2
    ⟨"pl1", true, [⟨"file", "plf", 0⟩]⟩ rfl (by decide) (by decide)

instance : IsTotal ProviderRef (fun a b => b.quality ≤ a.quality) :=
  ⟨fun a b => Nat.le_total b.quality a.quality⟩

instance : IsTrans ProviderRef (fun a b => b.quality ≤ a.quality) :=
  ⟨fun _ _ _ h1 h2 => Nat.le_trans h2 h1⟩

/-- `sortRefs` output is pairwise descending in quality. -/
theorem sortRefs_sorted (l : List ProviderRef) :
    (sortRefs l).Pairwise (fun a b => b.quality ≤ a.quality) :=
  List.sorted_insertionSort _ l

/-- `sortRefs` preserves membership. -/
theorem mem_sortRefs {r : ProviderRef} {l : List ProviderRef} (h : r ∈ l) :
    r ∈ sortRefs l :=
  (List.perm_insertionSort _ l).symm.subset h

/-- On a quality-descending list, `find?` returns a match of maximal quality
among the matches. -/
theorem find_max_of_sorted (p : ProviderRef → Bool) :
    ∀ l : List ProviderRef, l.Pairwise (fun a b => b.quality ≤ a.quality) →
      ∀ r' ∈ l, p r' = true →
        ∃ r, l.find? p = some r ∧ p r = true ∧ r'.quality ≤ r.quality
  | [], _, r', hr', _ => absurd hr' (List.not_mem_nil r')
  | x :: l, hp, r', hr', hpr' => by
    obtain ⟨hx, hl⟩ := List.pairwise_cons.mp hp
    by_cases hpx : p x = true
    · refine ⟨x, List.find?_cons_of_pos l hpx, hpx, ?_⟩
      rcases List.mem_cons.mp hr' with rfl | hmem
      · exact Nat.le_refl _
      · exact hx r' hmem
    · have hr'mem : r' ∈ l := by
        rcases List.mem_cons.mp hr' with rfl | hmem
        · exact absurd hpr' hpx
        · exact hmem
      obtain ⟨r, hfind, hpr, hle⟩ := find_max_of_sorted p l hl r' hr'mem hpr'
      exact ⟨r, by rw [List.find?_cons_of_neg l (by simp [hpx]), hfind], hpr, hle⟩

/-- On a quality-descending list, the head has maximal quality. -/
theorem head_max_of_sorted :
    ∀ l : List ProviderRef, l.Pairwise (fun a b => b.quality ≤ a.quality) →
      ∀ r' ∈ l, ∃ r, l.head? = some r ∧ r'.quality ≤ r.quality
  | [], _, r', hr' => absurd hr' (List.not_mem_nil r')
  | x :: l, hp, r', hr' => by
    obtain ⟨hx, _⟩ := List.pairwise_cons.mp hp
    rcases List.mem_cons.mp hr' with rfl | hmem
    · exact ⟨r', rfl, Nat.le_refl _⟩
    · exact ⟨x, rfl, hx r' hmem⟩

/-- For a non-`"file"` playlist provider, the ref walk is `find?` on the
provider name. -/
theorem pickTrackId_eq_find (prov : String) (h : prov ≠ "file") :
    ∀ refs : List ProviderRef,
      pickTrackId prov refs =
        (refs.find? (fun r => r.provider == prov)).map (fun r => r.item_id)
  | [] => rfl
  | r :: rest => by
    by_cases hp : r.provider = prov
    · rw [List.find?_cons_of_pos rest (by simp [hp])]
      simp [pickTrackId, hp]
    · rw [List.find?_cons_of_neg rest (by simp [hp])]
      simp only [pickTrackId, if_neg hp, if_neg h]
      exact pickTrackId_eq_find prov h rest

/-- For the `"file"` playlist provider, the very first ref decides: its own
id when it is a `"file"` ref, a synthesized URI otherwise. -/
theorem pickTrackId_file_eq_head :
    ∀ refs : List ProviderRef,
      pickTrackId "file" refs = refs.head?.map
        (fun r => if r.provider = "file" then r.item_id
          else r.provider ++ "://" ++ r.item_id)
  | [] => rfl
  | r :: rest => by
    by_cases hp : r.provider = "file" <;> simp [pickTrackId, hp]

/-- C7 (amended): for each non-duplicate candidate, the queued reference is
decided on the quality-descending sorted `provider_ids`.  For a non-`"file"`
playlist provider the first — hence highest-quality — same-provider ref is
selected.  For the `"file"` provider the single highest-quality ref overall
decides: its own id when it already belongs to `"file"`, otherwise a
synthesized `provider://item_id` URI — even when a lower-quality `"file"`
ref exists. -/
theorem C7_best_ref_selection (prov : String) (t : Track) :
    (prov ≠ "file" →
      bestTrackId prov t =
        ((sortRefs t.provider_ids).find? (fun r => r.provider == prov)).map
          (fun r => r.item_id)
      ∧ ∀ r' ∈ t.provider_ids, r'.provider = prov →
          ∃ r, (sortRefs t.provider_ids).find? (fun r => r.provider == prov) = some r
            ∧ r.provider = prov ∧ r'.quality ≤ r.quality)
    ∧ (bestTrackId "file" t =
        (sortRefs t.provider_ids).head?.map
          (fun r => if r.provider = "file" then r.item_id
            else r.provider ++ "://" ++ r.item_id)
      ∧ ∀ r' ∈ t.provider_ids,
          ∃ r, (sortRefs t.provider_ids).head? = some r ∧ r'.quality ≤ r.quality) := by
  constructor
  · intro h
    constructor
    · exact pickTrackId_eq_find prov h (sortRefs t.provider_ids)
    · intro r' hmem hprov
      obtain ⟨r, hfind, hpr, hle⟩ := find_max_of_sorted (fun r => r.provider == prov)
        (sortRefs t.provider_ids) (sortRefs_sorted t.provider_ids) r' (mem_sortRefs hmem)
        (by simp [hprov])
      exact ⟨r, hfind, by simpa using hpr, hle⟩
  · constructor
    · exact pickTrackId_file_eq_head (sortRefs t.provider_ids)
    · intro r' hmem
      exact head_max_of_sorted (sortRefs t.provider_ids) (sortRefs_sorted t.provider_ids)
        r' (mem_sortRefs hmem)

/-- Witness for C7: a `"spotify"` playlist and a track with a lower-quality
`"file"` ref and a higher-quality `"spotify"` ref. -/
theorem C7_best_ref_selection_witness :
    bestTrackId "spotify" ⟨"t1", [⟨"file", "f1", 5⟩, ⟨"spotify", "s1", 10⟩]⟩ =
      ((sortRefs [⟨"file", "f1", 5⟩, ⟨"spotify", "s1", 10⟩]).find?
          (fun r => r.provider == "spotify")).map (fun r => r.item_id) :=
  ((C7_best_ref_selection "spotify"
      ⟨"t1", [⟨"file", "f1", 5⟩, ⟨"spotify", "s1", 10⟩]⟩).1 (by decide)).1

/-- Counterexample to C7 as stated: the playlist lives on `"file"`, the
candidate track has a `"file"` ref (`f1`, quality 5) *and* a higher-quality
`"spotify"` ref (`s1`, quality 10).  The claim says the same-provider ref
`f1` must be selected and a URI synthesized only when no same-provider ref
exists; the code instead queues the synthesized URI `spotify://s1`. -/
theorem C7_counterexample :
    async_add_playlist_tracks (some ⟨"pl1", true, [⟨"file", "plf", 0⟩]⟩) []
        [⟨"t9", [⟨"spotify", "s1", 10⟩, ⟨"file", "f1", 5⟩]⟩] (some true) =
      .ok (some true) true (some ("plf", ["spotify://s1"]))
    ∧ (⟨"file", "f1", 5⟩ : ProviderRef) ∈
        [(⟨"spotify", "s1", 10⟩ : ProviderRef), ⟨"file", "f1", 5⟩] :=
  ⟨by decide, by decide⟩

/-- Every add call of the artists loop carries the synced provider id and
media type artist. -/
theorem artistsSyncLoop_adds (provider_id : String) (getArtist : String → Nat) :
    ∀ catalog : List String,
      ∀ c ∈ (artistsSyncLoop provider_id getArtist catalog).2,
        c.provider = provider_id ∧ c.media_type = MediaType.artist
  | [], c, hc => absurd hc (List.not_mem_nil c)
  | item :: rest, c, hc => by
    have hc' : c = (⟨getArtist item, MediaType.artist, provider_id⟩ : LibCall)
        ∨ c ∈ (artistsSyncLoop provider_id getArtist rest).2 := by
      simpa [artistsSyncLoop] using hc
    rcases hc' with rfl | hmem
    · exact ⟨rfl, rfl⟩
    · exact artistsSyncLoop_adds provider_id getArtist rest c hmem

/-- Every add call of the playlists loop carries the provider attribute of
one of the fetched playlists (not necessarily the synced provider id). -/
theorem playlistsSyncLoop_adds (getPlaylist : String → Nat × String)
    (addPlaylist : PlaylistProviderItem → Nat) :
    ∀ catalog : List PlaylistProviderItem,
      ∀ c ∈ (playlistsSyncLoop getPlaylist addPlaylist catalog).2,
        ∃ pl ∈ catalog, c.provider = pl.provider ∧ c.media_type = MediaType.playlist
  | [], c, hc => absurd hc (List.not_mem_nil c)
  | pl :: rest, c, hc => by
    have hc' : c = (⟨if (getPlaylist pl.item_id).2 = pl.checksum
          then (getPlaylist pl.item_id).1 else addPlaylist pl,
          MediaType.playlist, pl.provider⟩ : LibCall)
        ∨ c ∈ (playlistsSyncLoop getPlaylist addPlaylist rest).2 := by
      simpa [playlistsSyncLoop] using hc
    rcases hc' with rfl | hmem
    · exact ⟨pl, List.mem_cons_self pl rest, rfl, rfl⟩
    · obtain ⟨pl', hpl', hprov, hmt⟩ :=
        playlistsSyncLoop_adds getPlaylist addPlaylist rest c hmem
      exact ⟨pl', List.mem_cons_of_mem pl hpl', hprov, hmt⟩

/-- C8 (amended): during an artists sync every add-to-library call names the
synced `provider_id` and media type artist; during a playlists sync every
add-to-library call names the *fetched playlist's own* provider attribute,
which need not equal the synced provider id. -/
theorem C8_add_call_provider (provider_id : String) (getArtist : String → Nat)
    (acatalog : List String) (aprev : List Nat) (getPlaylist : String → Nat × String)
    (addPlaylist : PlaylistProviderItem → Nat) (pcatalog : List PlaylistProviderItem)
    (pprev : List Nat) :
    (∀ c ∈ (async_library_artists_sync provider_id getArtist acatalog aprev).adds,
      c.provider = provider_id ∧ c.media_type = MediaType.artist)
    ∧ (∀ c ∈ (async_library_playlists_sync provider_id getPlaylist addPlaylist
        pcatalog pprev).adds,
      ∃ pl ∈ pcatalog, c.provider = pl.provider ∧ c.media_type = MediaType.playlist) :=
  ⟨fun c hc => artistsSyncLoop_adds provider_id getArtist acatalog c hc,
    fun c hc => playlistsSyncLoop_adds getPlaylist addPlaylist pcatalog c hc⟩

/-- Witness for C8: artists sync of `"p1"` over a one-item catalog. -/
theorem C8_add_call_provider_witness :
    (⟨1, MediaType.artist, "p1"⟩ : LibCall).provider = "p1"
    ∧ (⟨1, MediaType.artist, "p1"⟩ : LibCall).media_type = MediaType.artist :=
  (C8_add_call_provider "p1" String.length ["a"] [] (fun _ => (7, "c"))
      (fun _ => 0) [] []).1 ⟨1, MediaType.artist, "p1"⟩ (by decide)

/-- Counterexample to C8 as stated: syncing playlists for provider `"p1"`
over a catalog holding one playlist whose own provider attribute is
`"other"` marks library membership for `"other"`, not for the synced
`"p1"`. -/
theorem C8_counterexample :
    (async_library_playlists_sync "p1" (fun _ => (7, "c0")) (fun _ => 0)
        [⟨"x", "c0", "other"⟩] []).adds =
      [⟨7, MediaType.playlist, "other"⟩] ∧ ("other" : String) ≠ "p1" :=
  ⟨rfl, by decide⟩

/-- C9 (amended): an absent playlist makes both playlist mutations return
`False`, and an absent provider makes the per-provider sync trigger a silent
no-op; but an absent provider surfaces as an exception, not a false/empty
result, both in the provider-registered event handler (which dereferences
the looked-up provider without a check) and in either playlist mutation once
it has track ids to apply (each calls the looked-up provider without a
`None` guard). -/
theorem C9_absent_reference_handling (plTracks tracks : List Track)
    (provResult? : Option Bool) :
    async_music_provider_sync none = []
    ∧ async_add_playlist_tracks none plTracks tracks provResult?
        = .ok (some false) false none
    ∧ async_remove_playlist_tracks none tracks provResult?
        = .ok (some false) false none
    ∧ mass_event_provider_registered none = Except.error ()
    ∧ (∀ pl : Playlist, pl.is_editable = true →
        ∀ p rest, pl.provider_ids = p :: rest →
        trackIdsToAdd p.provider (curPlaylistTrackIds plTracks) tracks ≠ [] →
        async_add_playlist_tracks (some pl) plTracks tracks none = .err)
    ∧ (∀ pl : Playlist, pl.is_editable = true →
        ∀ p rest, pl.provider_ids = p :: rest →
        trackIdsToRemove p.provider tracks ≠ [] →
        async_remove_playlist_tracks (some pl) tracks none = .err) := by
  refine ⟨rfl, rfl, rfl, rfl, ?_, ?_⟩
  · intro pl hed p rest hpl hne
    match h : trackIdsToAdd p.provider (curPlaylistTrackIds plTracks) tracks with
    | [] => exact absurd h hne
    | tid :: tids => simp [async_add_playlist_tracks, hed, hpl, h]
  · intro pl hed p rest hpl hne
    match h : trackIdsToRemove p.provider tracks with
    | [] => exact absurd h hne
    | tid :: tids => simp [async_remove_playlist_tracks, hed, hpl, h]

/-- Witness for C9: a remove call on an existing editable `"spotify"`
playlist with one matching track and an absent provider ends in the
exception branch. -/
theorem C9_absent_reference_handling_witness :
    async_remove_playlist_tracks
        (some ⟨"pl1", true, [⟨"spotify", "plp", 0⟩]⟩)
        [⟨"t1", [⟨"spotify", "s1", 1⟩]⟩] none = .err :=
  (C9_absent_reference_handling [] [⟨"t1", [⟨"spotify", "s1", 1⟩]⟩]
      (some true)).2.2.2.2.2
    ⟨"pl1", true, [⟨"spotify", "plp", 0⟩]⟩ rfl ⟨"spotify", "plp", 0⟩ [] rfl
    (by decide)

/-- Counterexample to C9 as stated: the provider-registered event handler
applied to an absent provider raises (`provider.type` on `None`) instead of
returning a false/empty result; and adding a queueable track to an editable
`"file"` playlist whose provider is absent also raises (the looked-up
provider is called without a `None` guard) instead of returning false. -/
theorem C9_counterexample :
    (mass_event_provider_registered none = Except.error ()
      ∧ ∀ b : Bool, mass_event_provider_registered none ≠ Except.ok b)
    ∧ async_add_playlist_tracks (some ⟨"pl1", true, [⟨"file", "plf", 0⟩]⟩) []
        [⟨"t9", [⟨"spotify", "s1", 10⟩]⟩] none = PlaylistOpResult.err :=
  ⟨⟨rfl, fun b h => by cases h⟩, by decide⟩

/-- No ref of any given track matches the playlist provider ⇒ nothing is
collected for removal. -/
theorem trackIdsToRemove_nil (playlistProv : String) :
    ∀ tracks : List Track,
      (∀ t ∈ tracks, ∀ r ∈ t.provider_ids, r.provider ≠ playlistProv) →
      trackIdsToRemove playlistProv tracks = []
  | [], _ => rfl
  | track :: rest, h => by
    have hfilter : track.provider_ids.filter (fun r => r.provider = playlistProv) = [] := by
      rw [List.filter_eq_nil_iff]
      intro r hr
      simp [h track (List.mem_cons_self track rest) r hr]
    simp [trackIdsToRemove, hfilter,
      trackIdsToRemove_nil playlistProv rest
        (fun t ht => h t (List.mem_cons_of_mem track ht))]

/-- C10: on an existing editable playlist where no given track has a ref on
the playlist's authoritative provider, `async_remove_playlist_tracks` falls
through and returns `None` — distinct from the explicit `False` of the
missing-playlist branch — with no provider call and no checksum bump. -/
theorem C10_remove_returns_none (tracks : List Track) (provResult? : Option Bool)
    (pl : Playlist) (p : ProviderRef) (rest : List ProviderRef)
    (h1 : pl.is_editable = true) (h2 : pl.provider_ids = p :: rest)
    (h3 : ∀ t ∈ tracks, ∀ r ∈ t.provider_ids, r.provider ≠ p.provider) :
    async_remove_playlist_tracks (some pl) tracks provResult? = .ok none false none
    ∧ async_remove_playlist_tracks none tracks provResult?
        = .ok (some false) false none := by
  refine ⟨?_, rfl⟩
  simp [async_remove_playlist_tracks, h1, h2,
    trackIdsToRemove_nil p.provider tracks h3]

/-- Witness for C10: editable `"spotify"` playlist, one track whose only ref
lives on `"file"`. -/
theorem C10_remove_returns_none_witness :
    async_remove_playlist_tracks
        (some ⟨"pl1", true, [⟨"spotify", "plp", 0⟩]⟩)
        [⟨"t1", [⟨"file", "f1", 1⟩]⟩] (some true)
      = .ok none false none :=
  (C10_remove_returns_none [⟨"t1", [⟨"file", "f1", 1⟩]⟩] (some true)
      ⟨"pl1", true, [⟨"spotify", "plp", 0⟩]⟩ ⟨"spotify", "plp", 0⟩ []
      rfl rfl (by decide)).1
